import Mathlib

/-!
Verification of `scripts/build-registry.mts` (inspira-ui registry build pipeline).

The script is a sequential static-artifact generator: it merges a static
registry list with crawler output, validates the merged list against a zod
schema, and emits index modules, per-item style JSON documents, color and
theme JSON documents and a theme stylesheet.  Everything below is a shallow
embedding of that script: pure JavaScript computations become Lean functions,
the file system becomes an explicit read function and an explicit list of
performed writes, and JavaScript quirks that matter (empty arrays being
truthy, member access on a string producing `undefined`, `undefined`
interpolating as the text "undefined", `JSON.stringify` omitting
`undefined`-valued properties) are modelled explicitly where the code
depends on them.

Collaborators that are not under `src/` (the zod schemas, the raw color
table `colors`, the semantic `colorMapping`, the `baseColors` theme bundle)
are modelled from the specification; each such definition carries a doc
comment starting with "Modelled from the spec:".

All string mechanics are implemented over `List Char` by structural
recursion so that every definition evaluates by kernel reduction.
-/

namespace BuildRegistry

/-- The characters of a string. -/
def chars (s : String) : List Char := s.data

/-- Build a string back from characters. -/
def ofChars (l : List Char) : String := String.mk l

/-- Split a character list on a single separator character; mirrors the
JavaScript `String.prototype.split` with a one-character separator
(so `"".split(x) = [""]` and a trailing separator yields a trailing
empty group). -/
def splitOnChar (sep : Char) : List Char → List (List Char)
  | [] => [[]]
  | c :: rest =>
    let r := splitOnChar sep rest
    if c = sep then [] :: r
    else
      match r with
      | [] => [[c]]
      | g :: gs => (c :: g) :: gs

/-- Numeric value of a digit run (callers guarantee the run is nonempty
and all digits). -/
def digitsToNat (l : List Char) : Nat :=
  l.foldl (fun n c => 10 * n + (c.toNat - 48)) 0

/-- JavaScript `Number.parseInt` restricted to the shapes the script feeds
it (a plain string): the leading digit run is parsed, `NaN` (here `none`)
when there is none.  Signs and whitespace never occur in the scale
position the script parses. -/
def jsParseInt (s : String) : Option Nat :=
  let ds := (chars s).takeWhile Char.isDigit
  if ds = [] then none else some (digitsToNat ds)

/-- A nonempty run of decimal digits, the `\d+` of the rgb regex. -/
def isDigitRun (l : List Char) : Bool :=
  !l.isEmpty && l.all Char.isDigit

/-- A nonempty run of digits and dots, the `[\d.]+` of the hsl regex. -/
def isNumRun (l : List Char) : Bool :=
  !l.isEmpty && l.all (fun c => c.isDigit || c = '.')

/-- A `[\d.]+%` group of the hsl regex: a nonempty digits-and-dots run
followed by a single percent sign.  The regex captures the whole group,
percent sign included. -/
def isPercentRun (l : List Char) : Bool :=
  l.getLast? = some '%' && isNumRun l.dropLast

/-- Strip an exact prefix and an exact suffix from a character list,
`none` when either is missing. -/
def stripAround (pre post l : List Char) : Option (List Char) :=
  if pre.isPrefixOf l then
    let m := l.drop pre.length
    if post.isSuffixOf m then some (m.take (m.length - post.length)) else none
  else none

/-- `item.rgb.replace(/^rgb\((\d+),(\d+),(\d+)\)$/, "$1 $2 $3")`: when the
whole string matches the anchored pattern the three captured integer runs
are re-emitted space separated, otherwise the string is returned
unchanged (the behaviour of `String.prototype.replace` on a non-matching
anchored regex).  The anchored pattern matches exactly when the text
between `rgb(` and a final `)` splits on commas into exactly three
nonempty digit runs, since `\d` matches neither a comma nor a paren. -/
def rgbChannel (s : String) : String :=
  match stripAround (chars "rgb(") (chars ")") (chars s) with
  | none => s
  | some inner =>
    match splitOnChar ',' inner with
    | [a, b, c] =>
      if isDigitRun a && isDigitRun b && isDigitRun c then
        ofChars (a ++ ' ' :: b ++ ' ' :: c)
      else s
    | _ => s

/-- `item.hsl.replace(/^hsl\(([\d.]+),([\d.]+%),([\d.]+%)\)$/, "$1 $2 $3")`:
the first group is a bare number run, the second and third groups are
number runs together with their trailing percent sign (the `%` is inside
the capture), re-emitted space separated; a non-matching string is
returned unchanged. -/
def hslChannel (s : String) : String :=
  match stripAround (chars "hsl(") (chars ")") (chars s) with
  | none => s
  | some inner =>
    match splitOnChar ',' inner with
    | [a, b, c] =>
      if isNumRun a && isPercentRun b && isPercentRun c then
        ofChars (a ++ ' ' :: b ++ ' ' :: c)
      else s
    | _ => s

example : rgbChannel "rgb(10,20,30)" = "10 20 30" := by decide
example : hslChannel "hsl(210,50%,40%)" = "210 50% 40%" := by decide
example : rgbChannel "rgb(10, 20, 30)" = "rgb(10, 20, 30)" := by decide
example : hslChannel "hsl(210,50,40)" = "hsl(210,50,40)" := by decide
example : hslChannel "hsl(222.2,84%,4.9%)" = "222.2 84% 4.9%" := by decide

/-- Left-to-right global literal replacement with a fuel argument (the fuel
is the length of the scanned list, enough because every step consumes at
least one character); mirrors `String.prototype.replace` with a global
literal regex for a nonempty pattern. -/
def replaceFuel (pat repl : List Char) : Nat → List Char → List Char
  | _, [] => []
  | 0, l => l
  | n + 1, c :: rest =>
    if pat.isPrefixOf (c :: rest) then
      repl ++ replaceFuel pat repl n ((c :: rest).drop pat.length)
    else c :: replaceFuel pat repl n rest

/-- `value.replace(/pat/g, repl)` for a literal pattern. -/
def jsReplaceAll (pat repl : List Char) (s : String) : String :=
  ofChars (replaceFuel pat repl (chars s).length (chars s))

-- ---------------------------------------------------------------------------
-- Data model: file references and registry items.
-- ---------------------------------------------------------------------------

/-- A structured file reference record `{path, type, target}`. -/
structure FileRecord where
  path : String
  type : String
  target : Option String
deriving DecidableEq

/-- `FileReference`: either a bare relative path (a plain string) or a
structured record; both shapes are handled by the script
(`typeof file === "string"` branches). -/
inductive FileRef
  | strPath (p : String)
  | fileRec (r : FileRecord)
deriving DecidableEq

/-- A validated registry item as the script consumes it after the top-level
schema parse. -/
structure RegistryItem where
  name : String
  type : String
  description : Option String
  registryDependencies : Option (List String)
  files : Option (List FileRef)
  category : Option String
  subcategory : Option String
deriving DecidableEq

/-- A raw item before top-level validation: the fields the schema requires
may be missing. -/
structure RawItem where
  name : Option String
  type : Option String
  description : Option String
  registryDependencies : Option (List String)
  files : Option (List FileRef)
  category : Option String
  subcategory : Option String
deriving DecidableEq

/-- Modelled from the spec: `registryItemTypeSchema` of `registry/schema`
(not under `src/`) is an enum of fixed string tags; the tags are the ones
the script whitelists. -/
def registryItemTypes : List String :=
  ["registry:ui", "registry:block", "registry:example", "registry:hook"]

/-- `REGISTRY_INDEX_WHITELIST` from the script. -/
def REGISTRY_INDEX_WHITELIST : List String :=
  ["registry:ui", "registry:block", "registry:example", "registry:hook"]

/-- Modelled from the spec: `registrySchema` (not under `src/`) validates
each merged item structurally; an item missing a required field such as
`name` or `type`, or whose `type` is not one of the fixed enum tags,
fails validation. -/
def validateItem (it : RawItem) : Option RegistryItem :=
  match it.name, it.type with
  | some n, some t =>
    if registryItemTypes.contains t then
      some { name := n, type := t, description := it.description,
             registryDependencies := it.registryDependencies,
             files := it.files, category := it.category,
             subcategory := it.subcategory }
    else none
  | _, _ => none

/-- Modelled from the spec: `registrySchema.safeParse` on the merged list
succeeds iff every item validates, returning the validated list. -/
def registrySchemaParse (l : List RawItem) : Option (List RegistryItem) :=
  l.mapM validateItem

-- ---------------------------------------------------------------------------
-- Index and block-index emission (__registry__/index.ts, __registry__/block.ts).
-- ---------------------------------------------------------------------------

/-- The content root used inside emitted file paths. -/
def inspiraRoot : String := "components/content/inspira/"

/-- The aliased content root used for component import paths. -/
def atInspiraRoot : String := "@/components/content/inspira/"

/-- JavaScript member access `file.path` on a file reference as used in the
component-path override `item.files[0].path`: for a structured record it
is the path, for a bare string it is `undefined`, which a template
literal renders as the text "undefined". -/
def fileInterpPath : FileRef → String
  | .strPath _ => "undefined"
  | .fileRec r => r.path

/-- The path text used by `resolveFiles` and the emitted `files` array:
`typeof file === "string" ? file : file.path`. -/
def fileResolvePath : FileRef → String
  | .strPath p => p
  | .fileRec r => r.path

/-- `item.type.split(":")[1]`, with a missing second component interpolating
as the text "undefined". -/
def typeSegment (t : String) : String :=
  match splitOnChar ':' (chars t) with
  | _ :: seg :: _ => ofChars seg
  | _ => "undefined"

/-- The conventional component path `@/components/content/inspira/<type>/<name>`. -/
def conventionalPath (item : RegistryItem) : String :=
  atInspiraRoot ++ typeSegment item.type ++ "/" ++ item.name

/-- The component path emitted for an item: the default conventional path,
overridden by the first file when the file list is present and nonempty
(`if (item.files) if (item.files?.length) componentPath = ...`). -/
def componentPath (item : RegistryItem) : String :=
  match item.files with
  | some (f :: _) => atInspiraRoot ++ fileInterpPath f
  | _ => conventionalPath item

/-- `JSON.stringify(item.registryDependencies)`: `undefined` serializes to
the literal token `undefined`, a list to a JSON array of strings. -/
def depsSerialized : Option (List String) → String
  | none => "undefined"
  | some l => "[" ++ String.intercalate "," (l.map (fun d => "\x22" ++ d ++ "\x22")) ++ "]"

/-- The descriptor fields emitted per item into a generated index module. -/
structure IndexEntry where
  name : String
  description : String
  type : String
  registryDependencies : String
  filePaths : List String
  component : String
  source : String
  category : String
  subcategory : String
deriving DecidableEq

/-- The entry `buildRegistry` emits for one item into `__registry__/index.ts`,
`none` when the item is skipped.  The skip condition is the JavaScript
`if (!resolveFiles) continue` where
`resolveFiles = item.files?.map(...)`: only a nullish `files` field skips,
an empty array is truthy and is emitted. -/
def registryIndexEntry (item : RegistryItem) : Option IndexEntry :=
  match item.files with
  | none => none
  | some fs =>
    some { name := item.name,
           description := item.description.getD "",
           type := item.type,
           registryDependencies := depsSerialized item.registryDependencies,
           filePaths := fs.map (fun f => inspiraRoot ++ fileResolvePath f),
           component := componentPath item,
           source := "",
           category := item.category.getD "",
           subcategory := item.subcategory.getD "" }

/-- The entry `buildBlockRegistry` emits for one item into
`__registry__/block.ts`: the block loop first skips every item whose type
is not `registry:block`, then proceeds exactly like the index loop.  The
additional per-file and per-item raw-source lazy loaders of the block
module are functions of the same emitted fields and are not modelled
separately. -/
def blockIndexEntry (item : RegistryItem) : Option IndexEntry :=
  if item.type = "registry:block" then registryIndexEntry item else none

/-- All entries of `__registry__/index.ts`, in registry order. -/
def buildRegistryEntries (reg : List RegistryItem) : List IndexEntry :=
  reg.filterMap registryIndexEntry

/-- All entries of `__registry__/block.ts`, in registry order. -/
def buildBlockEntries (reg : List RegistryItem) : List IndexEntry :=
  reg.filterMap blockIndexEntry

-- ---------------------------------------------------------------------------
-- public/r/index.json emission (inside buildRegistry).
-- ---------------------------------------------------------------------------

/-- A file record of `public/r/index.json`: `{ path: _file.path, type: item.type }`.
`_file.path` on a bare-string file is `undefined` (`none` here), and
`JSON.stringify` omits an `undefined`-valued property. -/
structure IndexJsonFile where
  path : Option String
  type : String
deriving DecidableEq

/-- `_file.path` as read by the index.json map: the path of a structured
record, `undefined` for a bare string. -/
def filePathOpt : FileRef → Option String
  | .strPath _ => none
  | .fileRec r => some r.path

/-- An item of `public/r/index.json`: the spread of the registry item with
its `files` replaced. -/
structure IndexJsonItem where
  name : String
  type : String
  description : Option String
  registryDependencies : Option (List String)
  files : Option (List IndexJsonFile)
  category : Option String
  subcategory : Option String
deriving DecidableEq

/-- `{...item, files: item.files?.map(_file => ({path: _file.path, type: item.type}))}`. -/
def transformIndexItem (item : RegistryItem) : IndexJsonItem :=
  { name := item.name, type := item.type, description := item.description,
    registryDependencies := item.registryDependencies,
    files := item.files.map (List.map (fun f =>
      { path := filePathOpt f, type := item.type })),
    category := item.category, subcategory := item.subcategory }

/-- The item list of `public/r/index.json`:
`registry.filter(item => ["registry:ui"].includes(item.type)).map(...)`. -/
def registryIndexJsonItems (reg : List RegistryItem) : List IndexJsonItem :=
  (reg.filter (fun i => i.type == "registry:ui")).map transformIndexItem

-- ---------------------------------------------------------------------------
-- Per-item style emission (buildStyles, public/r/styles/<name>.json).
-- ---------------------------------------------------------------------------

/-- A fully read file entry of a style payload. -/
structure StyleFile where
  path : String
  type : String
  content : String
  target : String
deriving DecidableEq

/-- The payload assembled per item: the item spread together with the read
files, validated against `registryEntrySchema.omit({category, subcategory})`.
zod strips the omitted keys from the parsed payload, so they do not appear
here. -/
structure StylePayload where
  name : String
  type : String
  description : Option String
  registryDependencies : Option (List String)
  files : Option (List StyleFile)
deriving DecidableEq

/-- The path a style file is read from: hook-type files relative to the
project root, every other type under the content root
(`path.join(process.cwd(), ...)`; the constant cwd prefix is dropped). -/
def styleReadKey (r : FileRecord) : String :=
  if r.type = "registry:hook" then r.path else inspiraRoot ++ r.path

/-- Reading one referenced file inside `buildStyles`.  For a bare-string
reference `_file.path` and `_file.type` are `undefined`, so
`path.join(..., undefined)` throws a TypeError that the surrounding
`try` catches: the error is logged and the entry is dropped, exactly as
for a failed read.  On success the entry carries the inlined content and
`target = (_file.target ?? "") || ""`. -/
def readStyleFile (fsReads : String → Option String) : FileRef → Except String StyleFile
  | .strPath _ => .error "TypeError: the path segment is undefined"
  | .fileRec r =>
    match fsReads (styleReadKey r) with
    | some content =>
      .ok { path := r.path, type := r.type, content := content,
            target := r.target.getD "" }
    | none => .error ("ENOENT: no such file " ++ styleReadKey r)

/-- The per-file outcomes for an item; `none` when the item has no `files`
field (the payload then carries `files: undefined`). -/
def styleItemFiles (fsReads : String → Option String) (item : RegistryItem) :
    Option (List (Except String StyleFile)) :=
  item.files.map (List.map (readStyleFile fsReads))

/-- The successful entry of an outcome, if any. -/
def exceptFile : Except String StyleFile → Option StyleFile
  | .ok f => some f
  | .error _ => none

/-- The logged message of a failed outcome, if any. -/
def exceptMsg : Except String StyleFile → Option String
  | .error m => some m
  | .ok _ => none

/-- Modelled from the spec: validating the assembled payload against the
entry schema with `category`/`subcategory` omitted checks the structural
requirements (the type is one of the fixed enum tags); entries dropped as
`undefined` are filtered implicitly by the parse. -/
def registryEntryValid (p : StylePayload) : Bool :=
  registryItemTypes.contains p.type

/-- The payload assembled for one item: the failed file entries are dropped
(`undefined` slots filtered by the schema parse), the successes kept in
order. -/
def stylePayloadOf (fsReads : String → Option String) (item : RegistryItem) :
    StylePayload :=
  { name := item.name, type := item.type, description := item.description,
    registryDependencies := item.registryDependencies,
    files := (styleItemFiles fsReads item).map (fun l => l.filterMap exceptFile) }

/-- Processing one item of the style loop, parameterized by the payload
validation (so that both outcomes of the validation gate can be stated):
the produced file (name and payload) when the item is whitelisted and the
payload validates, and the read errors logged for the item.  A failed
validation writes nothing and logs nothing. -/
def styleItemResult (valid : StylePayload → Bool) (fsReads : String → Option String)
    (item : RegistryItem) : Option (String × StylePayload) × List String :=
  if REGISTRY_INDEX_WHITELIST.contains item.type then
    let errs :=
      match styleItemFiles fsReads item with
      | none => []
      | some l => l.filterMap exceptMsg
    let p := stylePayloadOf fsReads item
    (if valid p then some (item.name, p) else none, errs)
  else (none, [])

/-- The whole style loop over the validated registry: the written style
documents (name and payload, in registry order) and all logged read
errors. -/
def runStyles (valid : StylePayload → Bool) (fsReads : String → Option String) :
    List RegistryItem → List (String × StylePayload) × List String
  | [] => ([], [])
  | item :: rest =>
    let r := styleItemResult valid fsReads item
    let acc := runStyles valid fsReads rest
    (match r.1 with
     | some x => x :: acc.1
     | none => acc.1,
     r.2 ++ acc.2)

-- ---------------------------------------------------------------------------
-- Flat color index (buildThemes, public/r/colors/index.json).
-- ---------------------------------------------------------------------------

/-- A raw palette shade of the color table: scale, rgb string, hsl string. -/
structure ColorShade where
  scale : Nat
  rgb : String
  hsl : String
deriving DecidableEq

/-- A shade after augmentation with the computed channel strings. -/
structure ColorShadeAug where
  scale : Nat
  rgb : String
  hsl : String
  rgbChannel : String
  hslChannel : String
deriving DecidableEq

/-- A value of the raw color table: a plain string, a palette family
(array of shades), or a single object with rgb/hsl forms. -/
inductive ColorValue
  | str (s : String)
  | palette (shades : List ColorShade)
  | obj (rgb hsl : String)
deriving DecidableEq

/-- A value of the flattened color index `colorsData`: string entries are
copied as-is (the string branch performs no augmentation), array entries
have every shade augmented, object entries are augmented in place. -/
inductive ColorDataValue
  | str (s : String)
  | palette (shades : List ColorShadeAug)
  | obj (rgb hsl rgbChannel hslChannel : String)
deriving DecidableEq

/-- `{...item, rgbChannel: item.rgb.replace(...), hslChannel: item.hsl.replace(...)}`. -/
def augmentShade (sh : ColorShade) : ColorShadeAug :=
  { scale := sh.scale, rgb := sh.rgb, hsl := sh.hsl,
    rgbChannel := rgbChannel sh.rgb, hslChannel := hslChannel sh.hsl }

/-- The three branches of the `colorsData` construction loop. -/
def flattenValue : ColorValue → ColorDataValue
  | .str s => .str s
  | .palette shades => .palette (shades.map augmentShade)
  | .obj r h => .obj r h (rgbChannel r) (hslChannel h)

/-- The whole `colorsData` flat index built from the raw color table. -/
def flattenColors (cs : List (String × ColorValue)) : List (String × ColorDataValue) :=
  cs.map (fun kv => (kv.1, flattenValue kv.2))

/-- Whether a flat-index value carries the computed channel fields (string
entries do not; the datatype itself records that a copied string has no
channel fields). -/
def hasChannelFields : ColorDataValue → Bool
  | .str _ => false
  | .palette _ => true
  | .obj _ _ _ _ => true

-- ---------------------------------------------------------------------------
-- Palette resolution shared by the base-stylesheet pass and per-theme pass.
-- ---------------------------------------------------------------------------

/-- The literal placeholder token of the color mapping, `{{base}}-`
(braces escaped). -/
def baseToken : String := "\x7b\x7bbase\x7d\x7d-"

/-- The global regex replacement of the placeholder token by the chosen
family name followed by a dash, as both resolution passes perform on a
mapping value before the lookup. -/
def substituteBase (family value : String) : String :=
  jsReplaceAll (chars baseToken) (chars (family ++ "-")) value

/-- JavaScript object lookup `colorsData[base]` (keys are unique). -/
def findColor (cd : List (String × ColorDataValue)) (k : String) : Option ColorDataValue :=
  (cd.find? (fun kv => kv.1 == k)).map (fun kv => kv.2)

/-- `const [resolvedBase, scale] = resolvedColor.split("-")`: the first two
components of the split; an empty second component is falsy and behaves
like a missing scale. -/
def splitBaseScale (s : String) : String × Option String :=
  match splitOnChar '-' (chars s) with
  | [] => ("", none)
  | [b] => (ofChars b, none)
  | b :: sc :: _ => (ofChars b, if sc = [] then none else some (ofChars sc))

/-- The outcome of
`const color = scale ? colorsData[base].find(i => i.scale === parseInt(scale)) : colorsData[base]`
followed by `if (color) target = color.hslChannel`:
* `crash`: a TypeError escapes (calling `.find` on `undefined`, a string
  or a plain object when a scale is present) and aborts the whole run;
* `found h`: a truthy entry with an `hslChannel` string;
* `foundUndef`: a truthy entry without an `hslChannel` property (a string
  or array entry looked up scale-less) — the variable is assigned
  `undefined`, which `JSON.stringify` omits;
* `notFound`: a falsy entry (missing key, failed `find`, empty string) —
  the assignment is skipped. -/
inductive LookupResult
  | crash
  | found (h : String)
  | foundUndef
  | notFound
deriving DecidableEq

/-- The shared lookup of both resolution passes. -/
def lookupVar (cd : List (String × ColorDataValue)) (resolvedColor : String) :
    LookupResult :=
  let bs := splitBaseScale resolvedColor
  match bs.2 with
  | some sc =>
    match findColor cd bs.1 with
    | some (.palette shades) =>
      (match jsParseInt sc with
       | some n =>
         match shades.find? (fun i => i.scale == n) with
         | some sh => .found sh.hslChannel
         | none => .notFound
       | none => .notFound)
    | _ => .crash
  | none =>
    match findColor cd bs.1 with
    | none => .notFound
    | some (.str s) => if s = "" then .notFound else .foundUndef
    | some (.palette _) => .foundUndef
    | some (.obj _ _ _ h) => .found h

/-- Whether a semantic key is a chart key (`key.startsWith("chart-")`). -/
def isChartKey (k : String) : Bool :=
  (chars "chart-").isPrefixOf (chars k)

/-- One cssVars value of the base-stylesheet pass (`buildThemes`, first
family loop).  A chart key takes the raw mapping value without lookup;
otherwise the placeholder is substituted and the lookup result assigned
when truthy.  The value is `none` when the key is absent from the
emitted JSON (never assigned, or assigned `undefined`). -/
def basePassVar (cd : List (String × ColorDataValue)) (family key value : String) :
    Except Unit (Option String) :=
  if isChartKey key then .ok (some value)
  else
    match lookupVar cd (substituteBase family value) with
    | .crash => .error ()
    | .found h => .ok (some h)
    | .foundUndef => .ok none
    | .notFound => .ok none

/-- One cssVars value of the per-theme pass (`buildThemes`, nested
`themes/<family>.json` loop).  There is no chart special case: the key is
first assigned the substituted color and then overwritten by the lookup
result when the entry is truthy. -/
def themePassVar (cd : List (String × ColorDataValue)) (family _key value : String) :
    Except Unit (Option String) :=
  let resolved := substituteBase family value
  match lookupVar cd resolved with
  | .crash => .error ()
  | .found h => .ok (some h)
  | .foundUndef => .ok none
  | .notFound => .ok (some resolved)

/-- The base-stylesheet pass over one mode of the color mapping. -/
def basePassMode (cd : List (String × ColorDataValue)) (family : String)
    (pairs : List (String × String)) : Except Unit (List (String × Option String)) :=
  pairs.mapM (fun kv => (basePassVar cd family kv.1 kv.2).map (fun v => (kv.1, v)))

/-- The per-theme pass over one mode of the color mapping. -/
def themePassMode (cd : List (String × ColorDataValue)) (family : String)
    (pairs : List (String × String)) : Except Unit (List (String × Option String)) :=
  pairs.mapM (fun kv => (themePassVar cd family kv.1 kv.2).map (fun v => (kv.1, v)))

-- ---------------------------------------------------------------------------
-- Modelled color data (registry-colors is not under src/).
-- ---------------------------------------------------------------------------

/-- Modelled from the spec: a representative palette family of the raw
color table; each shade carries a numeric scale and rgb/hsl string forms
matching the literal patterns the channel computation expects. -/
def mkPalette (hue : String) : List ColorShade :=
  [{ scale := 50,  rgb := "rgb(248,250,252)", hsl := "hsl(" ++ hue ++ ",40%,98%)" },
   { scale := 200, rgb := "rgb(226,232,240)", hsl := "hsl(" ++ hue ++ ",32%,91%)" },
   { scale := 500, rgb := "rgb(100,116,139)", hsl := "hsl(" ++ hue ++ ",16%,47%)" },
   { scale := 900, rgb := "rgb(15,23,42)",    hsl := "hsl(" ++ hue ++ ",39%,11%)" },
   { scale := 950, rgb := "rgb(2,6,23)",      hsl := "hsl(" ++ hue ++ ",41%,5%)" }]

/-- Modelled from the spec: the raw color table `colors` of
`registry/registry-colors` (not under `src/`): palette families keyed by
name (the five base families and the accent families the mapping uses),
single-object entries for white and black, and plain string entries. -/
def colorsRaw : List (String × ColorValue) :=
  [("slate",   .palette (mkPalette "215")),
   ("gray",    .palette (mkPalette "220")),
   ("zinc",    .palette (mkPalette "240")),
   ("neutral", .palette (mkPalette "30")),
   ("stone",   .palette (mkPalette "25")),
   ("red",     .palette (mkPalette "0")),
   ("white",   .obj "rgb(255,255,255)" "hsl(0,0%,100%)"),
   ("black",   .obj "rgb(0,0,0)" "hsl(0,0%,0%)"),
   ("transparent", .str "transparent")]

/-- The flat color index the script computes from the raw table. -/
def colorsData : List (String × ColorDataValue) := flattenColors colorsRaw

/-- Modelled from the spec: the light-mode semantic color mapping of
`registry/registry-colors` (not under `src/`): each semantic variable
maps to a literal color name or a placeholder reference with a
substitutable base token; chart keys hold literal channel values with no
1-to-1 tailwind color. -/
def colorMappingLight : List (String × String) :=
  [("background", "white"),
   ("foreground", baseToken ++ "950"),
   ("card", "white"),
   ("card-foreground", baseToken ++ "950"),
   ("popover", "white"),
   ("popover-foreground", baseToken ++ "950"),
   ("primary", baseToken ++ "900"),
   ("primary-foreground", baseToken ++ "50"),
   ("secondary", baseToken ++ "200"),
   ("secondary-foreground", baseToken ++ "900"),
   ("muted", baseToken ++ "200"),
   ("muted-foreground", baseToken ++ "500"),
   ("accent", baseToken ++ "200"),
   ("accent-foreground", baseToken ++ "900"),
   ("destructive", "red-500"),
   ("destructive-foreground", baseToken ++ "50"),
   ("border", baseToken ++ "200"),
   ("input", baseToken ++ "200"),
   ("ring", baseToken ++ "950"),
   ("chart-1", "220 70% 50%"),
   ("chart-2", "340 75% 55%"),
   ("chart-3", "30 80% 55%"),
   ("chart-4", "280 65% 60%"),
   ("chart-5", "160 60% 45%")]

/-- Modelled from the spec: the dark-mode semantic color mapping. -/
def colorMappingDark : List (String × String) :=
  [("background", baseToken ++ "950"),
   ("foreground", baseToken ++ "50"),
   ("card", baseToken ++ "950"),
   ("card-foreground", baseToken ++ "50"),
   ("popover", baseToken ++ "950"),
   ("popover-foreground", baseToken ++ "50"),
   ("primary", baseToken ++ "50"),
   ("primary-foreground", baseToken ++ "900"),
   ("secondary", baseToken ++ "900"),
   ("secondary-foreground", baseToken ++ "50"),
   ("muted", baseToken ++ "900"),
   ("muted-foreground", baseToken ++ "500"),
   ("accent", baseToken ++ "900"),
   ("accent-foreground", baseToken ++ "50"),
   ("destructive", "red-900"),
   ("destructive-foreground", baseToken ++ "50"),
   ("border", baseToken ++ "900"),
   ("input", baseToken ++ "900"),
   ("ring", baseToken ++ "500"),
   ("chart-1", "220 70% 50%"),
   ("chart-2", "340 75% 55%"),
   ("chart-3", "30 80% 55%"),
   ("chart-4", "280 65% 60%"),
   ("chart-5", "160 60% 45%")]

/-- The mode-keyed color mapping iterated by `Object.entries(colorMapping)`. -/
def colorMapping : List (String × List (String × String)) :=
  [("light", colorMappingLight), ("dark", colorMappingDark)]

/-- The five fixed base-color families of the script. -/
def baseColorFamilies : List String :=
  ["slate", "gray", "zinc", "neutral", "stone"]

/-- The cssVars map of `public/r/colors/<family>.json` (base-stylesheet
pass), keyed by mode. -/
def basePassCssVars (cd : List (String × ColorDataValue)) (family : String) :
    Except Unit (List (String × List (String × Option String))) :=
  colorMapping.mapM (fun mv => (basePassMode cd family mv.2).map (fun l => (mv.1, l)))

/-- The cssVars map of `public/r/themes/<family>.json` (per-theme pass),
keyed by mode. -/
def themePassCssVars (cd : List (String × ColorDataValue)) (family : String) :
    Except Unit (List (String × List (String × Option String))) :=
  colorMapping.mapM (fun mv => (themePassMode cd family mv.2).map (fun l => (mv.1, l)))

/-- The inlineColors map of the base-stylesheet pass: the substituted color
names, chart keys excluded. -/
def baseInlineColors (family : String) : List (String × List (String × String)) :=
  colorMapping.map (fun mv =>
    (mv.1, mv.2.filterMap (fun kv =>
      if isChartKey kv.1 then none else some (kv.1, substituteBase family kv.2))))

example : substituteBase "slate" (baseToken ++ "950") = "slate-950" := by decide
example : lookupVar colorsData "slate-950" = .found "215 41% 5%" := by rfl
example : lookupVar colorsData "white" = .found "0 0% 100%" := by rfl
example : lookupVar colorsData "220 70% 50%" = .notFound := by rfl
example : lookupVar colorsData "transparent" = .foundUndef := by rfl

-- ---------------------------------------------------------------------------
-- Serialization stand-ins.  Every write performs
-- `JSON.stringify(payload, null, 2)` (or template rendering) and hands one
-- string to the write layer; the exact indentation and quoting of
-- `JSON.stringify` is not byte-modelled (no claim depends on it), but each
-- serializer is a concrete function of the structured payload, and
-- `undefined`-valued properties are omitted as `JSON.stringify` does.
-- ---------------------------------------------------------------------------

/-- A JSON string literal (quotes escaped as \x22). -/
def quote (s : String) : String := "\x22" ++ s ++ "\x22"

/-- One file record of `public/r/index.json`; an `undefined` path is an
omitted property. -/
def jsonOfIndexJsonFile (f : IndexJsonFile) : String :=
  "\x7b" ++ (match f.path with
             | some p => "path:" ++ quote p ++ ","
             | none => "") ++ "type:" ++ quote f.type ++ "\x7d"

/-- One item of `public/r/index.json`. -/
def jsonOfIndexJsonItem (it : IndexJsonItem) : String :=
  "\x7bname:" ++ quote it.name ++ ",type:" ++ quote it.type ++
    (match it.files with
     | none => ""
     | some fs => ",files:[" ++ String.intercalate "," (fs.map jsonOfIndexJsonFile) ++ "]") ++
    "\x7d"

/-- The document of `public/r/index.json`. -/
def jsonOfIndexItems (l : List IndexJsonItem) : String :=
  "[" ++ String.intercalate "," (l.map jsonOfIndexJsonItem) ++ "]"

/-- One emitted descriptor block of a generated index module. -/
def renderIndexEntryText (e : IndexEntry) : String :=
  quote e.name ++ ": \x7b name: " ++ quote e.name ++
    ", description: " ++ quote e.description ++
    ", type: " ++ quote e.type ++
    ", registryDependencies: " ++ e.registryDependencies ++
    ", files: [" ++ String.intercalate "," (e.filePaths.map quote) ++ "]" ++
    ", component: import(" ++ quote e.component ++ ")" ++
    ", source: " ++ quote e.source ++
    ", category: " ++ quote e.category ++
    ", subcategory: " ++ quote e.subcategory ++ " \x7d,"

/-- The generated `__registry__/index.ts` module text. -/
def indexModuleText (reg : List RegistryItem) : String :=
  "// @ts-nocheck autogenerated. export const Index = \x7b" ++
    String.join ((buildRegistryEntries reg).map renderIndexEntryText) ++ "\n\x7d\n"

/-- The generated `__registry__/block.ts` module text. -/
def blockModuleText (reg : List RegistryItem) : String :=
  "// @ts-nocheck autogenerated. export const Index = \x7b" ++
    String.join ((buildBlockEntries reg).map renderIndexEntryText) ++ "\n\x7d\n"

/-- One file entry of a style payload document. -/
def jsonOfStyleFile (f : StyleFile) : String :=
  "\x7bpath:" ++ quote f.path ++ ",type:" ++ quote f.type ++
    ",content:" ++ quote f.content ++ ",target:" ++ quote f.target ++ "\x7d"

/-- A style payload document (`public/r/styles/<name>.json`). -/
def jsonOfStylePayload (p : StylePayload) : String :=
  "\x7bname:" ++ quote p.name ++ ",type:" ++ quote p.type ++
    (match p.files with
     | none => ""
     | some fs => ",files:[" ++ String.intercalate "," (fs.map jsonOfStyleFile) ++ "]") ++
    "\x7d"

/-- One shade of the flat color index document. -/
def jsonOfShadeAug (sh : ColorShadeAug) : String :=
  "\x7bscale:" ++ Nat.repr sh.scale ++ ",rgb:" ++ quote sh.rgb ++
    ",hsl:" ++ quote sh.hsl ++ ",rgbChannel:" ++ quote sh.rgbChannel ++
    ",hslChannel:" ++ quote sh.hslChannel ++ "\x7d"

/-- One value of the flat color index document. -/
def jsonOfColorDataValue : ColorDataValue → String
  | .str s => quote s
  | .palette shades => "[" ++ String.intercalate "," (shades.map jsonOfShadeAug) ++ "]"
  | .obj r h rc hc =>
    "\x7brgb:" ++ quote r ++ ",hsl:" ++ quote h ++ ",rgbChannel:" ++ quote rc ++
      ",hslChannel:" ++ quote hc ++ "\x7d"

/-- The flat color index document (`public/r/colors/index.json`). -/
def jsonOfColorsData (cd : List (String × ColorDataValue)) : String :=
  "\x7b" ++ String.intercalate ","
      (cd.map (fun kv => quote kv.1 ++ ":" ++ jsonOfColorDataValue kv.2)) ++ "\x7d"

/-- A cssVars map serialized with `undefined`-valued keys omitted, as
`JSON.stringify` omits them. -/
def jsonOfCssVars (cssv : List (String × List (String × Option String))) : String :=
  "\x7b" ++ String.intercalate ","
      (cssv.map (fun mv =>
        quote mv.1 ++ ":\x7b" ++
          String.intercalate ","
            (mv.2.filterMap (fun kv => kv.2.map (fun v => quote kv.1 ++ ":" ++ quote v))) ++
          "\x7d")) ++ "\x7d"

/-- An inlineColors map serialized. -/
def jsonOfInlineColors (ic : List (String × List (String × String))) : String :=
  "\x7b" ++ String.intercalate ","
      (ic.map (fun mv =>
        quote mv.1 ++ ":\x7b" ++
          String.intercalate "," (mv.2.map (fun kv => quote kv.1 ++ ":" ++ quote kv.2)) ++
          "\x7d")) ++ "\x7d"

/-- The `BASE_STYLES` template: plain tailwind directives, no variables. -/
def baseStylesText : String :=
  "@tailwind base;\n@tailwind components;\n@tailwind utilities;\n  "

/-- The semantic variable names interpolated by the
`BASE_STYLES_WITH_VARIABLES` template, in template order. -/
def templateKeys : List String :=
  ["background", "foreground", "card", "card-foreground", "popover",
   "popover-foreground", "primary", "primary-foreground", "secondary",
   "secondary-foreground", "muted", "muted-foreground", "accent",
   "accent-foreground", "destructive", "destructive-foreground", "border",
   "input", "ring", "chart-1", "chart-2", "chart-3", "chart-4", "chart-5"]

/-- The text a lodash interpolation produces for one variable: the resolved
value, or the empty text when the key is absent or `undefined`. -/
def cssVarText (cssv : List (String × List (String × Option String)))
    (mode key : String) : String :=
  match cssv.find? (fun mv => mv.1 == mode) with
  | none => ""
  | some mv =>
    match mv.2.find? (fun kv => kv.1 == key) with
    | none => ""
    | some kv => kv.2.getD ""

/-- The rendered `BASE_STYLES_WITH_VARIABLES` template (variable lines
abbreviated to the interpolated sequence; the surrounding fixed template
text is not byte-modelled). -/
def cssVarsTemplateText (cssv : List (String × List (String × Option String))) : String :=
  baseStylesText ++ "@layer base \x7b :root \x7b " ++
    String.join (templateKeys.map (fun k =>
      "--" ++ k ++ ": " ++ cssVarText cssv "light" k ++ "; ")) ++
    "--radius: 0.5rem; \x7d .dark \x7b " ++
    String.join (templateKeys.map (fun k =>
      "--" ++ k ++ ": " ++ cssVarText cssv "dark" k ++ "; ")) ++
    "\x7d \x7d"

/-- The document of `public/r/colors/<family>.json`. -/
def jsonOfBaseFamily (inline : List (String × List (String × String)))
    (cssv : List (String × List (String × Option String))) : String :=
  "\x7binlineColors:" ++ jsonOfInlineColors inline ++
    ",cssVars:" ++ jsonOfCssVars cssv ++
    ",inlineColorsTemplate:" ++ quote baseStylesText ++
    ",cssVarsTemplate:" ++ quote (cssVarsTemplateText cssv) ++ "\x7d"

/-- `baseColor.charAt(0).toUpperCase() + baseColor.slice(1)`. -/
def capitalize (s : String) : String :=
  match chars s with
  | [] => ""
  | c :: rest => ofChars (c.toUpper :: rest)

/-- The document of `public/r/themes/<family>.json`. -/
def jsonOfThemePayload (family : String)
    (cssv : List (String × List (String × Option String))) : String :=
  "\x7bname:" ++ quote family ++ ",label:" ++ quote (capitalize family) ++
    ",cssVars:" ++ jsonOfCssVars cssv ++ "\x7d"

/-- Modelled from the spec: `baseColors` of `registry/registry-base-colors`
(not under `src/`) bundles named themes, each with its own light/dark
css-variable maps; only the names matter to the rendered stylesheet shape
here. -/
def baseColorsThemeNames : List String := ["zinc", "rose"]

/-- The concatenated `public/r/themes.css` text: one rendered light/dark
rule pair per bundled theme, joined by newlines. -/
def themesCssText : String :=
  String.intercalate "\n" (baseColorsThemeNames.map (fun t =>
    ".theme-" ++ t ++ " \x7b [resolved light variables] \x7d\n.dark .theme-" ++ t ++
      " \x7b [resolved dark variables] \x7d"))

-- ---------------------------------------------------------------------------
-- The theme stage write payloads and the top-level pipeline.
-- ---------------------------------------------------------------------------

/-- The (path, payload) pairs `buildThemes` hands to the write layer, in
write order: the flat color index first, then per outer base family its
`colors/<family>.json`, the (repeatedly rewritten) `themes.css`, and the
nested inner family loop rewriting every `themes/<family>.json`.  A
TypeError escaping a lookup aborts the run (`Except.error`); rendering
with the modelled color data never crashes. -/
def themesPayloads : Except Unit (List (String × String)) := do
  let groups ← baseColorFamilies.mapM (fun family => do
    let cssv ← basePassCssVars colorsData family
    let inline := baseInlineColors family
    let themeGroup ← baseColorFamilies.mapM (fun fam2 => do
      let cssv2 ← themePassCssVars colorsData fam2
      pure ("public/r/themes/" ++ fam2 ++ ".json", jsonOfThemePayload fam2 cssv2))
    pure ([("public/r/colors/" ++ family ++ ".json", jsonOfBaseFamily inline cssv),
           ("public/r/themes.css", themesCssText)] ++ themeGroup))
  pure (("public/r/colors/index.json", jsonOfColorsData colorsData) :: groups.flatten)

/-- `async function writeFile(path, payload)`: the serialized payload with a
trailing CRLF appended, written as UTF-8 text. -/
def writeFileEntry (p payload : String) : String × String := (p, payload ++ "\r\n")

/-- The outcome of one run: the process exit code, every performed file
write (path and written content, in order), and the messages printed to
standard error. -/
structure PipelineResult where
  exitCode : Nat
  writtenFiles : List (String × String)
  loggedErrors : List String

/-- The message logged when the top-level schema validation fails
(`console.error(result.error)`). -/
def validationErrorLog : String := "ZodError: top-level registry validation failed"

/-- The message logged when an uncaught error reaches the top-level catch. -/
def typeErrorLog : String := "TypeError: uncaught error in the pipeline"

/-- The (path, payload) pairs of the registry, block and style stages, in
write order (`buildRegistry` writes `public/r/index.json` before
`__registry__/index.ts`). -/
def pipelinePayloadsPre (items : List RegistryItem)
    (styles : List (String × StylePayload) × List String) : List (String × String) :=
  [("public/r/index.json", jsonOfIndexItems (registryIndexJsonItems items)),
   ("__registry__/index.ts", indexModuleText items),
   ("__registry__/block.ts", blockModuleText items)] ++
  styles.1.map (fun np => ("public/r/styles/" ++ np.1 ++ ".json", jsonOfStylePayload np.2))

/-- The whole pipeline run: merge the static registry with the crawler
output, validate; on validation failure log the error and exit 1 with no
file written; on success run the four build stages, every write going
through the CRLF-appending write layer, and exit 0 (a theme-stage
TypeError reaches the top-level catch and exits 1; the modelled color
data never triggers it, and the theme writes performed before such a
crash are not enumerated). -/
def runPipeline (staticReg crawled : List RawItem) (fsReads : String → Option String) :
    PipelineResult :=
  match registrySchemaParse (staticReg ++ crawled) with
  | none =>
    { exitCode := 1, writtenFiles := [], loggedErrors := [validationErrorLog] }
  | some items =>
    let styles := runStyles registryEntryValid fsReads items
    match themesPayloads with
    | .error _ =>
      { exitCode := 1,
        writtenFiles := (pipelinePayloadsPre items styles).map
          (fun pp => writeFileEntry pp.1 pp.2),
        loggedErrors := styles.2 ++ [typeErrorLog] }
    | .ok tp =>
      { exitCode := 0,
        writtenFiles := ((pipelinePayloadsPre items styles) ++ tp).map
          (fun pp => writeFileEntry pp.1 pp.2),
        loggedErrors := styles.2 }

-- ---------------------------------------------------------------------------
-- Concrete fixtures used by the witnesses and counterexamples.
-- ---------------------------------------------------------------------------

/-- A raw item missing the required `name` field. -/
def c1RawNoName : RawItem :=
  { name := none, type := some "registry:ui", description := none,
    registryDependencies := none, files := none, category := none,
    subcategory := none }

/-- An existing referenced file. -/
def c2Rec1 : FileRecord :=
  { path := "globe/Globe.vue", type := "registry:ui", target := none }

/-- A referenced file that does not exist on disk. -/
def c2Rec2 : FileRecord :=
  { path := "globe/Missing.vue", type := "registry:ui", target := none }

/-- A validated item referencing one existing and one missing file. -/
def c2Item : RegistryItem :=
  { name := "globe", type := "registry:ui", description := none,
    registryDependencies := none,
    files := some [.fileRec c2Rec1, .fileRec c2Rec2],
    category := none, subcategory := none }

/-- The raw form of `c2Item` as the crawler or static list supplies it. -/
def c2Raw : RawItem :=
  { name := some "globe", type := some "registry:ui", description := none,
    registryDependencies := none,
    files := some [.fileRec c2Rec1, .fileRec c2Rec2],
    category := none, subcategory := none }

/-- A file system holding only the existing file. -/
def c2Fs : String → Option String := fun k =>
  if k = "components/content/inspira/globe/Globe.vue" then
    some "<template>globe</template>"
  else none

/-- The payload expected for an item whose first referenced file was read
with the given content and whose second reference failed. -/
def c2ExpectedPayload (item : RegistryItem) (r1 : FileRecord) (content1 : String) :
    StylePayload :=
  { name := item.name, type := item.type, description := item.description,
    registryDependencies := item.registryDependencies,
    files := some [{ path := r1.path, type := r1.type, content := content1,
                     target := r1.target.getD "" }] }

/-- An item with an empty (but present) file list: zero file references. -/
def c4ItemEmptyFiles : RegistryItem :=
  { name := "marquee", type := "registry:ui", description := none,
    registryDependencies := none, files := some [], category := none,
    subcategory := none }

/-- An item with an absent file list. -/
def c4ItemNoFiles : RegistryItem :=
  { name := "sparkles", type := "registry:ui", description := none,
    registryDependencies := none, files := none, category := none,
    subcategory := none }

/-- An item whose only file reference is a bare string path. -/
def c5ItemBare : RegistryItem :=
  { name := "aurora", type := "registry:ui", description := none,
    registryDependencies := none,
    files := some [.strPath "aurora/Aurora.vue"], category := none,
    subcategory := none }

/-- An item whose first file reference is a structured record. -/
def c5ItemRec : RegistryItem :=
  { name := "demo-card", type := "registry:ui", description := none,
    registryDependencies := none,
    files := some [.fileRec { path := "card/DemoCard.vue", type := "registry:ui",
                              target := none }],
    category := none, subcategory := none }

/-- A whitelisted item for exercising the style validation gate. -/
def c7Item : RegistryItem :=
  { name := "use-mouse", type := "registry:hook", description := none,
    registryDependencies := none, files := none, category := none,
    subcategory := none }

/-- A `registry:ui` item whose only file reference is a bare string. -/
def c10BareItem : RegistryItem :=
  { name := "meteors", type := "registry:ui", description := none,
    registryDependencies := none,
    files := some [.strPath "meteors/Meteors.vue"], category := none,
    subcategory := none }

/-- A `registry:ui` item with a structured file record. -/
def c10RecItem : RegistryItem :=
  { name := "lens", type := "registry:ui", description := none,
    registryDependencies := none,
    files := some [.fileRec { path := "lens/Lens.vue", type := "registry:ui",
                              target := none }],
    category := none, subcategory := none }

-- ---------------------------------------------------------------------------
-- Helper lemmas.
-- ---------------------------------------------------------------------------

/-- The theme stage succeeds on the modelled color data (no lookup crashes). -/
theorem themesPayloads_isOk : ∃ tp, themesPayloads = Except.ok tp := ⟨_, rfl⟩

/-- A style document produced for a member item appears in the output of
the whole style loop. -/
theorem mem_runStyles_file {valid : StylePayload → Bool}
    {fsReads : String → Option String} {items : List RegistryItem}
    {item : RegistryItem} {x : String × StylePayload} (hmem : item ∈ items)
    (hx : (styleItemResult valid fsReads item).1 = some x) :
    x ∈ (runStyles valid fsReads items).1 := by
  induction items with
  | nil => cases hmem
  | cons a rest ih =>
    rcases List.mem_cons.1 hmem with rfl | hmem2
    · simp only [runStyles, hx]
      exact List.mem_cons_self _ _
    · simp only [runStyles]
      cases h2 : (styleItemResult valid fsReads a).1 with
      | none => simpa using ih hmem2
      | some y =>
        simp only [h2]
        exact List.mem_cons_of_mem _ (ih hmem2)

/-- An error logged for a member item appears in the logged errors of the
whole style loop. -/
theorem mem_runStyles_err {valid : StylePayload → Bool}
    {fsReads : String → Option String} {items : List RegistryItem}
    {item : RegistryItem} {m : String} (hmem : item ∈ items)
    (hm : m ∈ (styleItemResult valid fsReads item).2) :
    m ∈ (runStyles valid fsReads items).2 := by
  induction items with
  | nil => cases hmem
  | cons a rest ih =>
    rcases List.mem_cons.1 hmem with rfl | hmem2
    · simp only [runStyles]
      exact List.mem_append_left _ hm
    · simp only [runStyles]
      exact List.mem_append_right _ (ih hmem2)

-- ---------------------------------------------------------------------------
-- Claim theorems.
-- ---------------------------------------------------------------------------

/-- C6 (counterexample): the claim states the percent sign is omitted from
the two trailing components of the emitted channel string.  In fact the
regex captures `[\d.]+%` whole, so the emitted string for
`hsl(210,50%,40%)` is `210 50% 40%` and its trailing components retain
their percent signs: the omission clause of the claim is false. -/
theorem c6_percent_retained_counterexample :
    hslChannel "hsl(210,50%,40%)" = "210 50% 40%" ∧
    ¬ (∀ tok ∈ (splitOnChar ' ' (chars (hslChannel "hsl(210,50%,40%)"))).drop 1,
        tok.contains '%' = false) := by
  decide

/-- C6 (amended): the channel computation maps `rgb(10,20,30)` to
`10 20 30` and `hsl(210,50%,40%)` to `210 50% 40%`; the emitted hsl
string consists of three space-separated tokens in which the first
carries no percent sign and the two trailing percentage components
retain theirs. -/
theorem c6_channel_strings :
    rgbChannel "rgb(10,20,30)" = "10 20 30" ∧
    hslChannel "hsl(210,50%,40%)" = "210 50% 40%" ∧
    (splitOnChar ' ' (chars (hslChannel "hsl(210,50%,40%)"))).map ofChars =
      ["210", "50%", "40%"] ∧
    (chars "210").contains '%' = false ∧
    (chars "50%").getLast? = some '%' ∧
    (chars "40%").getLast? = some '%' := by
  decide

/-- C4 (counterexample): an item with an empty file list has zero file
references, yet `!resolveFiles` is false for an empty array (empty
arrays are truthy), so the item is emitted into the generated index
module — the claim that every item with zero file references is skipped
is false. -/
theorem c4_empty_files_counterexample :
    c4ItemEmptyFiles.files = some [] ∧
    (buildRegistryEntries [c4ItemEmptyFiles]).map IndexEntry.name = ["marquee"] := by
  decide

/-- C4 (amended): an item whose `files` field is absent (nullish) produces
no entry in either generated index module; the skip is silent (the entry
functions log nothing).  An item with a present-but-empty file list is
still emitted. -/
theorem c4_absent_files_skipped (item : RegistryItem) (h : item.files = none) :
    registryIndexEntry item = none ∧ blockIndexEntry item = none := by
  refine ⟨?_, ?_⟩
  · simp [registryIndexEntry, h]
  · unfold blockIndexEntry
    split
    · simp [registryIndexEntry, h]
    · rfl

/-- C4 witness: the amended claim at a concrete item without a `files`
field. -/
theorem c4_absent_files_skipped_witness :
    c4ItemNoFiles.files = none ∧
    registryIndexEntry c4ItemNoFiles = none ∧
    blockIndexEntry c4ItemNoFiles = none :=
  ⟨rfl, (c4_absent_files_skipped c4ItemNoFiles rfl).1,
    (c4_absent_files_skipped c4ItemNoFiles rfl).2⟩

/-- C5 (counterexample): when the first file reference is a bare string,
`item.files[0].path` is `undefined` and the rendered component path is
the literal `@/components/content/inspira/undefined`, not the first
file's path prefixed with the content root. -/
theorem c5_bare_string_counterexample :
    c5ItemBare.files = some [FileRef.strPath "aurora/Aurora.vue"] ∧
    componentPath c5ItemBare = "@/components/content/inspira/undefined" ∧
    componentPath c5ItemBare ≠ atInspiraRoot ++ "aurora/Aurora.vue" := by
  decide

/-- C5 (amended): for every emitted item, the entry carries the component
path; the component path equals the first file's path prefixed with the
content root when the first file is a structured record, the literal
`undefined` segment when it is a bare string, and the conventional
type/name path when the file list is empty. -/
theorem c5_component_path (item : RegistryItem) (fs : List FileRef)
    (h : item.files = some fs) :
    (∃ e, registryIndexEntry item = some e ∧ e.component = componentPath item) ∧
    componentPath item =
      (match fs with
       | [] => conventionalPath item
       | .fileRec r :: _ => atInspiraRoot ++ r.path
       | .strPath _ :: _ => atInspiraRoot ++ "undefined") := by
  constructor
  · refine ⟨{ name := item.name, description := item.description.getD "",
              type := item.type,
              registryDependencies := depsSerialized item.registryDependencies,
              filePaths := fs.map (fun f => inspiraRoot ++ fileResolvePath f),
              component := componentPath item, source := "",
              category := item.category.getD "",
              subcategory := item.subcategory.getD "" }, ?_, rfl⟩
    simp [registryIndexEntry, h]
  · cases fs with
    | nil => simp [componentPath, h]
    | cons f rest => cases f <;> simp [componentPath, h, fileInterpPath]

/-- C5 witness: the amended claim at a concrete item whose first file is a
structured record. -/
theorem c5_component_path_witness :
    c5ItemRec.files =
      some [FileRef.fileRec { path := "card/DemoCard.vue", type := "registry:ui",
                              target := none }] ∧
    ((∃ e, registryIndexEntry c5ItemRec = some e ∧
        e.component = componentPath c5ItemRec) ∧
      componentPath c5ItemRec = atInspiraRoot ++ "card/DemoCard.vue") :=
  ⟨rfl, c5_component_path c5ItemRec _ rfl⟩

/-- C8 (counterexample): a plain string entry of the raw color table is
copied into the flat index unchanged and carries no channel fields; the
claim that scalar entries are augmented with channel fields is false. -/
theorem c8_string_entry_counterexample :
    flattenColors [("transparent", ColorValue.str "transparent")] =
      [("transparent", ColorDataValue.str "transparent")] ∧
    hasChannelFields (flattenValue (ColorValue.str "transparent")) = false := by
  decide

/-- C8 (amended): building the flat color index maps every entry of the raw
table; every shade of an array-valued entry is augmented with the
computed rgbChannel and hslChannel strings (the scale preserved), every
single-object entry is augmented in place, while plain string entries
pass through without channel fields. -/
theorem c8_flatten_augments (cs : List (String × ColorValue)) (k : String)
    (v : ColorValue) (h : (k, v) ∈ cs) :
    ((k, flattenValue v) ∈ flattenColors cs) ∧
    (∀ shades, v = ColorValue.palette shades →
      flattenValue v = ColorDataValue.palette (shades.map augmentShade) ∧
      ∀ sh ∈ shades,
        (augmentShade sh).rgbChannel = rgbChannel sh.rgb ∧
        (augmentShade sh).hslChannel = hslChannel sh.hsl ∧
        (augmentShade sh).scale = sh.scale) ∧
    (∀ r hch, v = ColorValue.obj r hch →
      flattenValue v = ColorDataValue.obj r hch (rgbChannel r) (hslChannel hch)) ∧
    (∀ s, v = ColorValue.str s → flattenValue v = ColorDataValue.str s) := by
  refine ⟨?_, ?_, ?_, ?_⟩
  · exact List.mem_map.2 ⟨(k, v), h, rfl⟩
  · rintro shades rfl
    exact ⟨rfl, fun sh _ => ⟨rfl, rfl, rfl⟩⟩
  · rintro r hch rfl
    rfl
  · rintro s rfl
    rfl

/-- C8 witness: the amended claim at the white entry of the modelled color
table, with the augmentation evaluated. -/
theorem c8_flatten_augments_witness :
    (("white", ColorValue.obj "rgb(255,255,255)" "hsl(0,0%,100%)") ∈ colorsRaw) ∧
    (("white", flattenValue (ColorValue.obj "rgb(255,255,255)" "hsl(0,0%,100%)"))
      ∈ flattenColors colorsRaw) ∧
    flattenValue (ColorValue.obj "rgb(255,255,255)" "hsl(0,0%,100%)") =
      ColorDataValue.obj "rgb(255,255,255)" "hsl(0,0%,100%)" "255 255 255" "0 0% 100%" :=
  ⟨by decide,
    (c8_flatten_augments colorsRaw _ _ (by decide)).1,
    by decide⟩

/-- C10 (counterexample): for a `registry:ui` item whose file reference is
a bare string, the emitted index.json record's `path` property is
`undefined` (omitted), not the file's path — the claim that each record
holds the file's path is false for bare-string references. -/
theorem c10_bare_string_counterexample :
    c10BareItem.type = "registry:ui" ∧
    c10BareItem.files = some [FileRef.strPath "meteors/Meteors.vue"] ∧
    registryIndexJsonItems [c10BareItem] = [transformIndexItem c10BareItem] ∧
    (transformIndexItem c10BareItem).files =
      some [{ path := none, type := "registry:ui" }] ∧
    (transformIndexItem c10BareItem).files ≠
      some [{ path := some "meteors/Meteors.vue", type := "registry:ui" }] := by
  decide

/-- C10 (amended): `public/r/index.json` contains exactly the validated
items of type `registry:ui`; each item's files are replaced by records
holding the item's type together with the file's path for a structured
record (`undefined`, an omitted property, for a bare-string reference). -/
theorem c10_index_json_items (items : List RegistryItem) (j : IndexJsonItem) :
    (j ∈ registryIndexJsonItems items ↔
      ∃ i, i ∈ items ∧ i.type = "registry:ui" ∧ j = transformIndexItem i) ∧
    (∀ i : RegistryItem, ∀ fs, i.files = some fs →
      (transformIndexItem i).files =
        some (fs.map (fun f => { path := filePathOpt f, type := i.type })) ∧
      ∀ r : FileRecord, filePathOpt (FileRef.fileRec r) = some r.path) := by
  constructor
  · constructor
    · intro hj
      rcases List.mem_map.1 hj with ⟨i, hi, rfl⟩
      rcases List.mem_filter.1 hi with ⟨hi2, ht⟩
      exact ⟨i, hi2, by simpa using ht, rfl⟩
    · rintro ⟨i, hi, ht, rfl⟩
      exact List.mem_map.2 ⟨i, List.mem_filter.2 ⟨hi, by simpa using ht⟩, rfl⟩
  · intro i fs h
    refine ⟨?_, fun r => rfl⟩
    simp [transformIndexItem, h]

/-- C10 witness: the amended claim at a concrete validated `registry:ui`
item with a structured file record. -/
theorem c10_index_json_items_witness :
    (transformIndexItem c10RecItem ∈ registryIndexJsonItems [c10RecItem]) ∧
    (transformIndexItem c10RecItem).files =
      some [{ path := some "lens/Lens.vue", type := "registry:ui" }] :=
  ⟨(c10_index_json_items [c10RecItem] (transformIndexItem c10RecItem)).1.2
      ⟨c10RecItem, List.mem_singleton.2 rfl, rfl, rfl⟩,
    ((c10_index_json_items [c10RecItem] (transformIndexItem c10RecItem)).2
      c10RecItem _ rfl).1⟩

/-- C1: when the merged item list (static registry concatenated with the
crawler output) fails the top-level schema validation, the run logs the
validation error, exits with code 1, and writes no output file. -/
theorem c1_validation_failure_fatal (staticReg crawled : List RawItem)
    (fsReads : String → Option String)
    (h : registrySchemaParse (staticReg ++ crawled) = none) :
    (runPipeline staticReg crawled fsReads).exitCode = 1 ∧
    (runPipeline staticReg crawled fsReads).writtenFiles = [] ∧
    (runPipeline staticReg crawled fsReads).loggedErrors = [validationErrorLog] := by
  refine ⟨?_, ?_, ?_⟩ <;> simp [runPipeline, h]

/-- C1 witness: a merged list holding an item without the required `name`
field fails validation and triggers the fatal path. -/
theorem c1_validation_failure_fatal_witness :
    registrySchemaParse ([c1RawNoName] ++ []) = none ∧
    (runPipeline [c1RawNoName] [] (fun _ => none)).exitCode = 1 ∧
    (runPipeline [c1RawNoName] [] (fun _ => none)).writtenFiles = [] ∧
    (runPipeline [c1RawNoName] [] (fun _ => none)).loggedErrors = [validationErrorLog] :=
  ⟨rfl,
    (c1_validation_failure_fatal [c1RawNoName] [] (fun _ => none) rfl).1,
    (c1_validation_failure_fatal [c1RawNoName] [] (fun _ => none) rfl).2.1,
    (c1_validation_failure_fatal [c1RawNoName] [] (fun _ => none) rfl).2.2⟩

/-- C3: for every base-color family, the CSS variable values resolved by
the base-stylesheet pass (the cssVars of `colors/<family>.json`) equal
the values resolved by the per-theme pass (the cssVars of
`themes/<family>.json`), for every mode and semantic key. -/
theorem c3_base_theme_consistency (family : String)
    (hf : family ∈ baseColorFamilies) :
    basePassCssVars colorsData family = themePassCssVars colorsData family := by
  fin_cases hf <;> rfl

/-- C3 witness: the two passes agree at the slate family. -/
theorem c3_base_theme_consistency_witness :
    ("slate" ∈ baseColorFamilies) ∧
    basePassCssVars colorsData "slate" = themePassCssVars colorsData "slate" :=
  ⟨by decide, c3_base_theme_consistency "slate" (by decide)⟩

/-- C7: for a whitelisted item, a payload failing the entry-schema
validation is silently skipped (no document produced) while a validating
payload is written; the logged messages are exactly the read errors,
unchanged by the validation outcome. -/
theorem c7_style_validation_gate (valid : StylePayload → Bool)
    (fsReads : String → Option String) (item : RegistryItem)
    (hwl : REGISTRY_INDEX_WHITELIST.contains item.type = true) :
    (valid (stylePayloadOf fsReads item) = false →
      (styleItemResult valid fsReads item).1 = none) ∧
    (valid (stylePayloadOf fsReads item) = true →
      (styleItemResult valid fsReads item).1 =
        some (item.name, stylePayloadOf fsReads item)) ∧
    (styleItemResult valid fsReads item).2 =
      (match styleItemFiles fsReads item with
       | none => []
       | some l => l.filterMap exceptMsg) := by
  have hwl2 : item.type ∈ REGISTRY_INDEX_WHITELIST := by simpa using hwl
  refine ⟨fun hv => ?_, fun hv => ?_, ?_⟩
  · simp [styleItemResult, hwl2, hv]
  · simp [styleItemResult, hwl2, hv]
  · simp [styleItemResult, hwl2]

/-- C7 witness: the gate at a concrete whitelisted item, once with an
always-rejecting validation and once with an always-accepting one. -/
theorem c7_style_validation_gate_witness :
    REGISTRY_INDEX_WHITELIST.contains c7Item.type = true ∧
    (styleItemResult (fun _ => false) (fun _ => none) c7Item).1 = none ∧
    (styleItemResult (fun _ => true) (fun _ => none) c7Item).1 =
      some (c7Item.name, stylePayloadOf (fun _ => none) c7Item) :=
  ⟨by decide,
    (c7_style_validation_gate (fun _ => false) (fun _ => none) c7Item (by decide)).1 rfl,
    (c7_style_validation_gate (fun _ => true) (fun _ => none) c7Item (by decide)).2.1 rfl⟩

/-- C9: every file the pipeline writes consists of the serialized payload
with a trailing CRLF appended (every write goes through the
CRLF-appending write layer). -/
theorem c9_trailing_crlf (staticReg crawled : List RawItem)
    (fsReads : String → Option String) (pc : String × String)
    (hmem : pc ∈ (runPipeline staticReg crawled fsReads).writtenFiles) :
    ∃ payload, pc.2 = payload ++ "\r\n" := by
  unfold runPipeline at hmem
  cases h : registrySchemaParse (staticReg ++ crawled) with
  | none =>
    rw [h] at hmem
    simp at hmem
  | some items =>
    rw [h] at hmem
    cases ht : themesPayloads with
    | error e =>
      rw [ht] at hmem
      simp only [List.mem_map] at hmem
      rcases hmem with ⟨pp, _, rfl⟩
      exact ⟨pp.2, rfl⟩
    | ok tp =>
      rw [ht] at hmem
      simp only [List.mem_map] at hmem
      rcases hmem with ⟨pp, _, rfl⟩
      exact ⟨pp.2, rfl⟩

/-- C9 witness: the registry index write of a run on an empty registry
carries the trailing CRLF. -/
theorem c9_trailing_crlf_witness :
    (("public/r/index.json", jsonOfIndexItems (registryIndexJsonItems []) ++ "\r\n")
      ∈ (runPipeline [] [] (fun _ => none)).writtenFiles) ∧
    ∃ payload,
      (("public/r/index.json", jsonOfIndexItems (registryIndexJsonItems []) ++ "\r\n") :
        String × String).2 = payload ++ "\r\n" := by
  have hparse : registrySchemaParse ([] ++ ([] : List RawItem)) = some [] := rfl
  obtain ⟨tp, htp⟩ := themesPayloads_isOk
  have hm : ("public/r/index.json", jsonOfIndexItems (registryIndexJsonItems []) ++ "\r\n")
      ∈ (runPipeline [] [] (fun _ => none)).writtenFiles := by
    simp only [runPipeline, hparse, htp]
    refine List.mem_map.2 ⟨("public/r/index.json",
      jsonOfIndexItems (registryIndexJsonItems [])), ?_, rfl⟩
    exact List.mem_append_left _ (List.mem_cons_self _ _)
  exact ⟨hm, c9_trailing_crlf [] [] (fun _ => none) _ hm⟩

/-- C2: when a whitelisted item references one readable and one unreadable
file, the read failure is logged, the failed entry is dropped, and the
item is still written with only the successful entry; the run exits 0. -/
theorem c2_missing_file_dropped (staticReg crawled : List RawItem)
    (fsReads : String → Option String) (items : List RegistryItem)
    (item : RegistryItem) (r1 r2 : FileRecord) (content1 : String)
    (hparse : registrySchemaParse (staticReg ++ crawled) = some items)
    (hmem : item ∈ items)
    (hwl : REGISTRY_INDEX_WHITELIST.contains item.type = true)
    (hfiles : item.files = some [FileRef.fileRec r1, FileRef.fileRec r2])
    (hr1 : fsReads (styleReadKey r1) = some content1)
    (hr2 : fsReads (styleReadKey r2) = none) :
    (runPipeline staticReg crawled fsReads).exitCode = 0 ∧
    ((item.name, c2ExpectedPayload item r1 content1)
      ∈ (runStyles registryEntryValid fsReads items).1) ∧
    (("public/r/styles/" ++ item.name ++ ".json",
        jsonOfStylePayload (c2ExpectedPayload item r1 content1) ++ "\r\n")
      ∈ (runPipeline staticReg crawled fsReads).writtenFiles) ∧
    ("ENOENT: no such file " ++ styleReadKey r2)
      ∈ (runPipeline staticReg crawled fsReads).loggedErrors := by
  have hwl2 : item.type ∈ REGISTRY_INDEX_WHITELIST := by simpa using hwl
  have hva : registryEntryValid (c2ExpectedPayload item r1 content1) = true := hwl
  have hsf : styleItemFiles fsReads item =
      some [Except.ok { path := r1.path, type := r1.type, content := content1,
                        target := r1.target.getD "" },
            Except.error ("ENOENT: no such file " ++ styleReadKey r2)] := by
    simp [styleItemFiles, hfiles, readStyleFile, hr1, hr2]
  have hpay : stylePayloadOf fsReads item = c2ExpectedPayload item r1 content1 := by
    simp [stylePayloadOf, hsf, exceptFile, c2ExpectedPayload]
  have hres : styleItemResult registryEntryValid fsReads item =
      (some (item.name, c2ExpectedPayload item r1 content1),
        ["ENOENT: no such file " ++ styleReadKey r2]) := by
    simp [styleItemResult, hwl2, hsf, hpay, hva, exceptMsg]
  have hfile : (item.name, c2ExpectedPayload item r1 content1)
      ∈ (runStyles registryEntryValid fsReads items).1 :=
    mem_runStyles_file hmem (by rw [hres])
  have herr : ("ENOENT: no such file " ++ styleReadKey r2)
      ∈ (runStyles registryEntryValid fsReads items).2 :=
    mem_runStyles_err hmem (by rw [hres]; exact List.mem_singleton.2 rfl)
  obtain ⟨tp, htp⟩ := themesPayloads_isOk
  refine ⟨?_, hfile, ?_, ?_⟩
  · simp [runPipeline, hparse, htp]
  · have hpre : ("public/r/styles/" ++ item.name ++ ".json",
        jsonOfStylePayload (c2ExpectedPayload item r1 content1))
        ∈ pipelinePayloadsPre items (runStyles registryEntryValid fsReads items) := by
      unfold pipelinePayloadsPre
      refine List.mem_append_right _ ?_
      exact List.mem_map.2 ⟨(item.name, c2ExpectedPayload item r1 content1), hfile, rfl⟩
    simp only [runPipeline, hparse, htp]
    exact List.mem_map.2 ⟨_, List.mem_append_left _ hpre, rfl⟩
  · simp only [runPipeline, hparse, htp]
    exact herr

/-- C2 witness: the scenario at a concrete item with one existing and one
missing referenced file. -/
theorem c2_missing_file_dropped_witness :
    (runPipeline [c2Raw] [] c2Fs).exitCode = 0 ∧
    ((c2Item.name, c2ExpectedPayload c2Item c2Rec1 "<template>globe</template>")
      ∈ (runStyles registryEntryValid c2Fs [c2Item]).1) ∧
    (("public/r/styles/" ++ c2Item.name ++ ".json",
        jsonOfStylePayload
          (c2ExpectedPayload c2Item c2Rec1 "<template>globe</template>") ++ "\r\n")
      ∈ (runPipeline [c2Raw] [] c2Fs).writtenFiles) ∧
    ("ENOENT: no such file " ++ styleReadKey c2Rec2)
      ∈ (runPipeline [c2Raw] [] c2Fs).loggedErrors :=
  c2_missing_file_dropped [c2Raw] [] c2Fs [c2Item] c2Item c2Rec1 c2Rec2
    "<template>globe</template>" rfl (List.mem_singleton.2 rfl) (by decide)
    rfl (by decide) (by decide)

end BuildRegistry
